import Mathlib

/-!
# Zomoc — verification of the value-synthesis and route-resolution core

Shallow embedding of the mocking core of the `zomoc` repository:

* `createMockDataFromZodSchema` (src/generator.ts) — recursive mock-value
  synthesis from a Zod schema, as the Lean function `gen`;
* the axios request interceptor's route resolver and pagination branch
  (src/interceptor.ts) — as `resolve` and `paginationBranch`;
* the registry-building half of `generateRegistryString` (core.ts) — as
  `processEntry` / `buildEntries`.

JavaScript effects are made explicit:

* `Math.random()` is modelled by an oracle `RNG := Nat → Nat`.  Each call
  site of the form `Math.floor(Math.random() * k)` reads one oracle value
  reduced `% k` (`draw`), so it yields exactly the interval `[0, k)` the
  JS expression yields.  Nested random consumers receive disjoint slices
  of the oracle (`split`), matching the independence of successive
  `Math.random()` calls: every JS execution corresponds to some oracle
  and every oracle to a possible JS execution.
* `console.warn` output is modelled as an explicit list of messages.
* a thrown `TypeError` is modelled as `Except.error`.
-/

namespace Zomoc

/-- JSON-like runtime values produced by the generator (the JS `any`).
`vundefined` models the JavaScript `undefined` value. -/
inductive Value where
  | vstr (s : String)
  | vnum (n : Int)
  | vbool (b : Bool)
  | varr (items : List Value)
  | vobj (fields : List (String × Value))
  | vundefined
  deriving Repr

/-- The Zod schema tree, exactly the node kinds dispatched on by
`createMockDataFromZodSchema` in src/generator.ts.  `zunion` and `zenum`
carry a head option because `z.union` / `z.enum` require a non-empty
option list at the type level; `zdiscriminatedUnion` keeps a plain list
because the generator itself guards the empty case.  `zunknown` stands
for any schema kind not recognized by the dispatch chain. -/
inductive ZodSchema where
  | zstring
  | znumber
  | zboolean
  | zdate
  | zoptional (inner : ZodSchema)
  | znullable (inner : ZodSchema)
  | zeffects (inner : ZodSchema)
  | zarray (element : ZodSchema)
  | zobject (shape : List (String × ZodSchema))
  | zrecord (valueType : ZodSchema)
  | znativeEnum (values : List Value)
  | ztuple (items : List ZodSchema)
  | zenum (first : String) (rest : List String)
  | zliteral (value : Value)
  | zunion (first : ZodSchema) (rest : List ZodSchema)
  | zdiscriminatedUnion (options : List ZodSchema)
  | zintersection (left right : ZodSchema)
  | zunknown
  deriving Repr

/-- The `mockingStrategy` of a registry entry. -/
inductive Strategy where
  | random
  | fixed
  deriving Repr, DecidableEq

/-- `customGenerators` (src/types.ts `CustomGenerators`): optional
override hooks for the primitive kinds.  The zero-argument JS hooks are
modelled by their (pure) return value. -/
structure CustomGenerators where
  string : Option (String → String) := none
  number : Option Int := none
  boolean : Option Bool := none
  dateTime : Option String := none

/-- The default (all hooks absent) custom-generator record. -/
def defaultGens : CustomGenerators := {}

/-- The random oracle: an arbitrary stream of naturals standing for the
successive `Math.random()` observations. -/
abbrev RNG := Nat → Nat

/-- One bounded draw: models `Math.floor(Math.random() * k)`, a value in
`[0, k)` for `k > 0`. -/
def draw (r : RNG) (k : Nat) : Nat := r 0 % k

/-- Hands an independent slice of the oracle to the `i`-th nested random
consumer (successive `Math.random()` calls are independent). -/
def split (r : RNG) (i : Nat) : RNG := fun n => r (Nat.pair (i + 1) n)

/-- Models `Math.random().toString(36).substring(7)`: an arbitrary
oracle-dependent suffix string used to make placeholder strings unique. -/
def randomSuffix (r : RNG) : String := Nat.repr (r 0)

/-- `key.toLowerCase().includes(sub)`, as used by getRandomString: `sub`
occurs in `key.toLowerCase()` iff splitting on it yields ≥ 2 pieces. -/
def keyIncludes (key sub : String) : Bool := (key.toLower.splitOn sub).length > 1

/-- `getRandomString` (src/generator.ts): masks password-like keys,
URL-ish keys get a URL-like string, otherwise a generic placeholder with
a random suffix. -/
def getRandomString (key : String) (r : RNG) : String :=
  if keyIncludes key "password" then "••••••••"
  else if keyIncludes key "url" then "https://example.com/mock-path/" ++ randomSuffix r
  else "temp text: " ++ randomSuffix r

/-- `getRandomNumber` (src/generator.ts): `Math.floor(1000 + Math.random() * 9000)`. -/
def getRandomNumber (r : RNG) : Int := 1000 + (draw r 9000 : Int)

/-- `getRandomBoolean` (src/generator.ts): `Math.random() > 0.5`. -/
def getRandomBoolean (r : RNG) : Bool := draw r 2 = 1

/-- `getRandomDateTime` (src/generator.ts): `new Date().toISOString()`.
The wall clock is external to the program; the concrete instant is
irrelevant to every property proved below, so it is modelled by a fixed
ISO-8601 string. -/
def getRandomDateTime : String := "1970-01-01T00:00:00.000Z"

/-- The own enumerable string-keyed properties that `{...v}` contributes
for a value `v` in JavaScript: an object's fields, an array's or a
string's index-keyed elements, and nothing for the other primitives. -/
def Value.spreadFields : Value → List (String × Value)
  | .vobj fields => fields
  | .varr items => items.enum.map fun p => (Nat.repr p.1, p.2)
  | .vstr s => s.data.enum.map fun p => (Nat.repr p.1, .vstr (String.singleton p.2))
  | _ => []

/-- `{...l, ...r}`: keys of `l` in order (values overridden by `r` where
`r` also has the key), then the keys only `r` has, in `r`'s order. -/
def Value.spreadMerge (l r : List (String × Value)) : List (String × Value) :=
  (l.map fun p => (p.1, (r.lookup p.1).getD p.2)) ++
    r.filter fun p => (l.lookup p.1).isNone

/-- Termination helper: indexing a non-empty schema list with its own
head as default stays below the list's size. -/
theorem sizeOf_getDElem_cons_lt (o : ZodSchema) (os : List ZodSchema) (i : Nat) :
    sizeOf ((o :: os)[i]?.getD o) < 1 + sizeOf o + sizeOf os := by
  cases h : (o :: os)[i]? with
  | none => simp; omega
  | some a =>
    have ha : a ∈ o :: os := List.getElem?_mem h
    have := List.sizeOf_lt_of_mem ha
    simp only [List.cons.sizeOf_spec] at this
    simp only [h, Option.getD_some]
    omega

mutual

/-- `createMockDataFromZodSchema` (src/generator.ts).  Arguments mirror
the JS parameter list `(schema, key = "", customGenerators, repeatCount,
seed = 0, strategy = "random")`; `repeatCount` keeps its `number |
undefined` type as `Option Nat`, while for `key`/`seed`/`strategy` the
callers below pass the resolved JS default where their argument would be
`undefined`. -/
def gen (schema : ZodSchema) (key : String) (gens : CustomGenerators)
    (repeatCount : Option Nat) (seed : Nat) (strategy : Strategy) (r : RNG) : Value :=
  match schema with
  -- ZodOptional / ZodNullable: unwrap and recurse with the same policy.
  | .zoptional inner => gen inner key gens repeatCount seed strategy r
  | .znullable inner => gen inner key gens repeatCount seed strategy r
  -- ZodEffects ("schema" in def): unwrap and recurse.
  | .zeffects inner => gen inner key gens repeatCount seed strategy r
  -- ZodArray: item count = repeatCount if a number, else random in [1,3];
  -- each item recurses with repeatCount cleared (undefined) and seed
  -- seed*itemCount+i.
  | .zarray element =>
    let itemCount := match repeatCount with
      | some n => n
      | none => draw (split r 0) 3 + 1
    .varr <| (List.range itemCount).map fun i =>
      gen element (key ++ "[" ++ Nat.repr i ++ "]") gens none
        (seed * itemCount + i) strategy (split r (i + 1))
  -- ZodObject: each field in shape order, field name as the key context.
  | .zobject shape => .vobj (genFields shape gens repeatCount seed strategy 0 r)
  -- ZodRecord: exactly two sample entries from def.valueType.
  | .zrecord valueType =>
    .vobj [("key1", gen valueType "key1" gens repeatCount seed strategy (split r 0)),
           ("key2", gen valueType "key2" gens repeatCount seed strategy (split r 1))]
  -- ZodString
  | .zstring =>
    match gens.string with
    | some f => .vstr (f key)
    | none => .vstr (getRandomString key r)
  -- ZodNumber
  | .znumber =>
    match gens.number with
    | some n => .vnum n
    | none => .vnum (getRandomNumber r)
  -- ZodBoolean
  | .zboolean =>
    match gens.boolean with
    | some b => .vbool b
    | none => .vbool (getRandomBoolean r)
  -- ZodDate
  | .zdate =>
    match gens.dateTime with
    | some s => .vstr s
    | none => .vstr getRandomDateTime
  -- ZodNativeEnum: values[0] if fixed, else values[random index];
  -- indexing an empty values list yields undefined in JS.
  | .znativeEnum values =>
    match values with
    | [] => .vundefined
    | v :: vs =>
      match strategy with
      | .fixed => v
      | .random => (v :: vs).getD (draw r (vs.length + 1)) .vundefined
  -- ZodTuple: map each positional item; repeatCount is passed through.
  | .ztuple items => .varr (genItems items key gens repeatCount seed strategy 0 r)
  -- ZodEnum: options[0] if fixed, else a uniformly random option.
  | .zenum first rest =>
    match strategy with
    | .fixed => .vstr first
    | .random => .vstr ((first :: rest).getD (draw r (rest.length + 1)) first)
  -- ZodLiteral: the literal value verbatim.
  | .zliteral v => v
  -- ZodUnion: options[0] if fixed, else a random option; the chosen
  -- option is recursively synthesized.
  | .zunion first rest =>
    match strategy with
    | .fixed => gen first key gens repeatCount seed strategy (split r 0)
    | .random =>
      gen ((first :: rest).getD (draw r (rest.length + 1)) first)
        key gens repeatCount seed strategy (split r 1)
  -- ZodDiscriminatedUnion: empty option map falls back to the sentinel,
  -- otherwise first (fixed) or random branch, recursively synthesized.
  | .zdiscriminatedUnion options =>
    match options with
    | [] => .vstr "unhandled zod type"
    | o :: os =>
      match strategy with
      | .fixed => gen o key gens repeatCount seed strategy (split r 0)
      | .random =>
        gen ((o :: os).getD (draw r (os.length + 1)) o)
          key gens repeatCount seed strategy (split r 1)
  -- ZodIntersection: generate both sides and spread-merge `{...l, ...r}`.
  | .zintersection left right =>
    let mockLeft := gen left key gens repeatCount seed strategy (split r 0)
    let mockRight := gen right key gens repeatCount seed strategy (split r 1)
    .vobj (Value.spreadMerge mockLeft.spreadFields mockRight.spreadFields)
  -- Unrecognized kind: the sentinel string, no exception.
  | .zunknown => .vstr "unhandled zod type"
termination_by sizeOf schema
decreasing_by
  all_goals simp_wf
  all_goals first
  | omega
  | (have hu := sizeOf_getDElem_cons_lt first rest (draw r (rest.length + 1)); omega)
  | (have hd := sizeOf_getDElem_cons_lt o os (draw r (os.length + 1)); omega)

/-- The ZodObject loop `for (const field in shape)`: each field recurses
with the field name as key context, `repeatCount`/`seed`/`strategy`
passed through unchanged; `i` indexes the oracle slice per field. -/
def genFields (fields : List (String × ZodSchema)) (gens : CustomGenerators)
    (repeatCount : Option Nat) (seed : Nat) (strategy : Strategy) (i : Nat)
    (r : RNG) : List (String × Value) :=
  match fields with
  | [] => []
  | (f, s) :: rest =>
    (f, gen s f gens repeatCount seed strategy (split r i)) ::
      genFields rest gens repeatCount seed strategy (i + 1) r
termination_by sizeOf fields
decreasing_by
  all_goals simp_wf
  all_goals omega

/-- The ZodTuple `def.items.map((item, i) => ...)`: each positional item
recurses with key `` `${key}[${i}]` ``, `repeatCount`/`seed`/`strategy`
passed through unchanged. -/
def genItems (items : List ZodSchema) (key : String) (gens : CustomGenerators)
    (repeatCount : Option Nat) (seed : Nat) (strategy : Strategy) (i : Nat)
    (r : RNG) : List Value :=
  match items with
  | [] => []
  | s :: rest =>
    gen s (key ++ "[" ++ Nat.repr i ++ "]") gens repeatCount seed strategy (split r i) ::
      genItems rest key gens repeatCount seed strategy (i + 1) r
termination_by sizeOf items
decreasing_by
  all_goals simp_wf
  all_goals omega

end

/-! ## Route resolution (src/interceptor.ts) -/

/-- `s.split(sep)` for the single-character separators the resolver uses
(`" "` and `"/"`): splits at every occurrence, keeping empty pieces, as
the JS `String.prototype.split` does. -/
def splitCharAux (sep : Char) : List Char → List Char → List String
  | [], acc => [String.mk acc.reverse]
  | c :: cs, acc =>
    if c = sep then String.mk acc.reverse :: splitCharAux sep cs []
    else splitCharAux sep cs (c :: acc)

/-- See `splitCharAux`. -/
def splitChar (sep : Char) (s : String) : List String := splitCharAux sep s.data []

/-- `s.toUpperCase()` for the ASCII method names compared here. -/
def jsToUpper (s : String) : String := String.mk (s.data.map Char.toUpper)

/-- `parts.join(" ")`. -/
def joinSpace : List String → String
  | [] => ""
  | [x] => x
  | x :: xs => x ++ " " ++ joinSpace xs

/-- `part.startsWith(":")`. -/
def startsColon (s : String) : Bool :=
  match s.data with
  | c :: _ => c == ':'
  | [] => false

/-- `part.slice(1)` — the parameter name after the `:`. -/
def dropHeadChar (s : String) : String := String.mk (s.data.drop 1)

/-- One pattern/URL segment: a `:name` pattern segment captures any
non-empty URL segment, any other segment must match literally. -/
def segOk (p : String × String) : Bool :=
  if startsColon p.1 then p.2 != "" else p.1 == p.2

/-- Models `match(mockUrlPattern, { decode: decodeURIComponent })(url)`
from path-to-regexp for the named-parameter patterns the registry uses:
both strings are split on `/`, the segment counts must agree, and each
segment must satisfy `segOk`; on success the `:name` captures are
returned in order.  (Percent-decoding of captured segments is not
modelled; all inputs below are plain ASCII.) -/
def pathMatch (pattern url : String) : Option (List (String × String)) :=
  let ps := splitChar '/' pattern
  let us := splitChar '/' url
  if ps.length == us.length && (ps.zip us).all segOk then
    some ((ps.zip us).filterMap fun p =>
      if startsColon p.1 then some (dropHeadChar p.1, p.2) else none)
  else none

/-- One iteration of the registry loop: the key splits on spaces; keys
with fewer than two parts are skipped (`parts.length < 2`), the method
part is upper-cased and compared against the (upper-cased) request
method, and the remaining parts re-joined with spaces form the URL
pattern tested by `pathMatch`. -/
def entryMatch (requestMethod url key : String) : Option (List (String × String)) :=
  let parts := splitChar ' ' key
  if parts.length < 2 then none
  else if requestMethod != jsToUpper (parts.headD "") then none
  else pathMatch (joinSpace (parts.drop 1)) url

/-- The registry scan of `setupMockingInterceptor.onFulfilled`
(src/interceptor.ts): iterate the registry entries in declaration order
and return the value and captured path parameters of the first entry
whose method and pattern match (`break` after the first match).  `α` is
the registry-value type, which resolution never inspects. -/
def resolve {α : Type _} (registry : List (String × α)) (method url : String) :
    Option (α × List (String × String)) :=
  match registry with
  | [] => none
  | (key, v) :: rest =>
    match entryMatch (jsToUpper method) url key with
    | some ps => some (v, ps)
    | none => resolve rest method url

/-! ## Pagination branch of the interceptor (src/interceptor.ts) -/

/-- The `pagination` field of a registry value (src/types.ts):
`pageKey`/`sizeKey` are optional and default to "page"/"size" at use
sites via `??`. -/
structure Pagination where
  itemsKey : String
  totalKey : String
  pageKey : Option String := none
  sizeKey : Option String := none
  deriving Repr

/-- JS property access `(schema as any).shape`: only a ZodObject has a
`shape`; on every other schema the access yields `undefined`. -/
def shapeOf : ZodSchema → Option (List (String × ZodSchema))
  | .zobject shape => some shape
  | _ => none

/-- The pagination branch of `onFulfilled` (src/interceptor.ts): page
and size come from `config.params?.[k] ?? config.data?.[k] ?? default`
(request query parameters, then request-body fields, then 1 / 10); the
items are generated from `schema.shape[itemsKey]` with `repeatCount =
size` and `seed = page`, and the body carries the items, a dummy total
of 100, and the echoed page.  `(schema as any).shape[itemsKey]` throws a
`TypeError` when the schema has no `shape` (non-object schema), and when
`itemsKey` is missing from the shape the resulting `undefined` makes
`createMockDataFromZodSchema` throw at its `_def` access; a throw is
modelled as `Except.error`.  Numeric page/size values are modelled;
`strategy.getD .random` mirrors the generator's JS default parameter for
an `undefined` strategy argument. -/
def paginationBranch (pag : Pagination) (params bodyData : List (String × Nat))
    (schema : ZodSchema) (gens : CustomGenerators) (strategy : Option Strategy)
    (r : RNG) : Except String Value :=
  let pageKey := pag.pageKey.getD "page"
  let sizeKey := pag.sizeKey.getD "size"
  let page := ((params.lookup pageKey).orElse fun _ => bodyData.lookup pageKey).getD 1
  let size := ((params.lookup sizeKey).orElse fun _ => bodyData.lookup sizeKey).getD 10
  match shapeOf schema with
  | none => .error "TypeError: Cannot read properties of undefined (reading the items key)"
  | some shape =>
    match shape.lookup pag.itemsKey with
    | none => .error "TypeError: Cannot read properties of undefined (reading _def)"
    | some itemSchema =>
      let pageData := gen itemSchema "" gens (some size) page (strategy.getD .random) r
      .ok (.vobj [(pag.itemsKey, pageData), (pag.totalKey, .vnum 100), (pageKey, .vnum page)])

/-! ## Registry construction (core.ts `generateRegistryString`, steps 4 and 6) -/

/-- One response definition inside a `responses` map (core.ts
`ResponseDefinition`). -/
structure ResponseDefinition where
  responseType : Option String := none
  responseBody : Option Value := none
  pagination : Option Pagination := none
  mockingStrategy : Option Strategy := none
  repeatCount : Option Nat := none
  deriving Repr

/-- One parsed `mock.json` route value: a bare type-name string, a
simple-mode config object, a response-map object (detected by its
`responses` field), or any other JSON value (skipped). -/
inductive MockConfig where
  | typeName (name : String)
  | simple (responseType : Option String) (responseBody : Option Value)
      (pagination : Option Pagination) (mockingStrategy : Option Strategy)
      (repeatCount : Option Nat) (status : Option Nat)
  | responseMap (responses : List (String × ResponseDefinition)) (status : Nat)
  | other
  deriving Repr

/-- The registry-value object emitted into `finalSchemaUrlMap` for one
route (`schema` holds the emitted schema identifier, `none` standing for
the literal `undefined`). -/
structure RegistryEntry where
  key : String
  schema : Option String
  responseBody : Option Value
  status : Nat
  pagination : Option Pagination
  strategy : Strategy
  repeatCount : Option Nat
  deriving Repr

/-- Shared tail of both registration modes: the camel-cased schema name
is looked up among the survived schema declarations; a route whose
(defined) schema name did not survive is dropped (`continue`). -/
def emitEntry (survived : List String) (entry : RegistryEntry) : Option RegistryEntry :=
  match entry.schema with
  | some n => if survived.contains n then some entry else none
  | none => some entry

/-- One iteration of the mock-map loop in `generateRegistryString`
(core.ts, step 6): returns the registry entry pushed for this route (if
any) together with the `console.warn` messages emitted while processing
it.  `survived` is the set of generated schema declaration names;
`nameOf` is the interface-name → schema-name convention (camelCase +
"Schema"), kept abstract since the camel-casing is done by an external
library. -/
def processEntry (survived : List String) (nameOf : String → String)
    (key : String) : MockConfig → Option RegistryEntry × List String
  -- Response Map Mode
  | .responseMap responses status =>
    let activeStatusKey := Nat.repr status
    let (active?, finalStatus, warns) :=
      match responses.lookup activeStatusKey with
      | some d => (some d, status, [])
      | none =>
        match responses with
        | [] => (none, status, [])
        | (k0, d0) :: _ =>
          -- `Number(fallbackStatusKey)` for the numeric status keys used.
          let fb := (k0.toNat?).getD 0
          (some d0, fb,
            ["[Zomoc] Warning: status " ++ activeStatusKey ++
              " not found in responses for " ++ key ++
              ". Falling back to the first available status: " ++ Nat.repr fb ++ "."])
    match active? with
    | none => (none, warns)
    | some active =>
      let schemaName := active.responseType.map nameOf
      (emitEntry survived
        { key := key, schema := schemaName, responseBody := active.responseBody,
          status := finalStatus, pagination := active.pagination,
          strategy := active.mockingStrategy.getD .random,
          repeatCount := active.repeatCount }, warns)
  -- Simple Mode: a bare type-name string gets status 200 ...
  | .typeName name =>
    (emitEntry survived
      { key := key, schema := some (nameOf name), responseBody := none,
        status := 200, pagination := none, strategy := .random,
        repeatCount := none }, [])
  -- ... and a config object drops `responseBody` (with a warning) and
  -- takes `rest.status || 200` (`0`, like `undefined`, is falsy).
  | .simple rt rb pagc ms rc st =>
    let warns :=
      if rb.isSome then
        ["[Zomoc] Warning: responseBody is not supported in simple mode for " ++
          key ++ ". Please use the responses map structure."]
      else []
    let status := match st with
      | some s => if s = 0 then 200 else s
      | none => 200
    (emitEntry survived
      { key := key, schema := rt.map nameOf, responseBody := none,
        status := status, pagination := pagc, strategy := ms.getD .random,
        repeatCount := rc }, warns)
  | .other => (none, [])

/-- The full mock-map loop: entries pushed to `urlMapEntries` in
iteration order (a dropped route contributes nothing). -/
def buildEntries (survived : List String) (nameOf : String → String)
    (mockMap : List (String × MockConfig)) : List RegistryEntry :=
  mockMap.filterMap fun p => (processEntry survived nameOf p.1 p.2).1

/-- The `console.warn` messages of the mock-map loop, in order. -/
def buildWarnings (survived : List String) (nameOf : String → String)
    (mockMap : List (String × MockConfig)) : List String :=
  mockMap.flatMap fun p => (processEntry survived nameOf p.1 p.2).2

/-- Step 4 of `generateRegistryString`: the interface names listed in
the skipped-types warning — those found in the interface files whose
expected schema name is absent from the survived declarations. -/
def failedInterfaceNames (interfaceNames survived : List String)
    (nameOf : String → String) : List String :=
  interfaceNames.filter fun n => !(survived.contains (nameOf n))

/-! ## Console output of the generator

`createMockDataFromZodSchema` (src/generator.ts) contains no
`console.warn` / `console.log` statement in any branch, so the console
output of a synthesis call is the (ordered) union of the output of its
recursive calls with nothing added — mirrored branch by branch below. -/

mutual

/-- The `console` messages emitted by `createMockDataFromZodSchema`
for the given call: each branch contributes exactly the messages of its
recursive calls (the source has no console statement of its own in any
branch, including the unrecognized-kind fallback). -/
def genConsole (schema : ZodSchema) (key : String) (gens : CustomGenerators)
    (repeatCount : Option Nat) (seed : Nat) (strategy : Strategy) (r : RNG) :
    List String :=
  match schema with
  | .zoptional inner => genConsole inner key gens repeatCount seed strategy r
  | .znullable inner => genConsole inner key gens repeatCount seed strategy r
  | .zeffects inner => genConsole inner key gens repeatCount seed strategy r
  | .zarray element =>
    let itemCount := match repeatCount with
      | some n => n
      | none => draw (split r 0) 3 + 1
    (List.range itemCount).flatMap fun i =>
      genConsole element (key ++ "[" ++ Nat.repr i ++ "]") gens none
        (seed * itemCount + i) strategy (split r (i + 1))
  | .zobject shape => genFieldsConsole shape gens repeatCount seed strategy 0 r
  | .zrecord valueType =>
    genConsole valueType "key1" gens repeatCount seed strategy (split r 0) ++
      genConsole valueType "key2" gens repeatCount seed strategy (split r 1)
  | .zstring => []
  | .znumber => []
  | .zboolean => []
  | .zdate => []
  | .znativeEnum _ => []
  | .ztuple items => genItemsConsole items key gens repeatCount seed strategy 0 r
  | .zenum _ _ => []
  | .zliteral _ => []
  | .zunion first rest =>
    match strategy with
    | .fixed => genConsole first key gens repeatCount seed strategy (split r 0)
    | .random =>
      genConsole ((first :: rest).getD (draw r (rest.length + 1)) first)
        key gens repeatCount seed strategy (split r 1)
  | .zdiscriminatedUnion options =>
    match options with
    | [] => []
    | o :: os =>
      match strategy with
      | .fixed => genConsole o key gens repeatCount seed strategy (split r 0)
      | .random =>
        genConsole ((o :: os).getD (draw r (os.length + 1)) o)
          key gens repeatCount seed strategy (split r 1)
  | .zintersection left right =>
    genConsole left key gens repeatCount seed strategy (split r 0) ++
      genConsole right key gens repeatCount seed strategy (split r 1)
  | .zunknown => []
termination_by sizeOf schema
decreasing_by
  all_goals simp_wf
  all_goals first
  | omega
  | (have hu := sizeOf_getDElem_cons_lt first rest (draw r (rest.length + 1)); omega)
  | (have hd := sizeOf_getDElem_cons_lt o os (draw r (os.length + 1)); omega)

/-- Console messages of the ZodObject field loop. -/
def genFieldsConsole (fields : List (String × ZodSchema)) (gens : CustomGenerators)
    (repeatCount : Option Nat) (seed : Nat) (strategy : Strategy) (i : Nat)
    (r : RNG) : List String :=
  match fields with
  | [] => []
  | (f, s) :: rest =>
    genConsole s f gens repeatCount seed strategy (split r i) ++
      genFieldsConsole rest gens repeatCount seed strategy (i + 1) r
termination_by sizeOf fields
decreasing_by
  all_goals simp_wf
  all_goals omega

/-- Console messages of the ZodTuple item loop. -/
def genItemsConsole (items : List ZodSchema) (key : String) (gens : CustomGenerators)
    (repeatCount : Option Nat) (seed : Nat) (strategy : Strategy) (i : Nat)
    (r : RNG) : List String :=
  match items with
  | [] => []
  | s :: rest =>
    genConsole s (key ++ "[" ++ Nat.repr i ++ "]") gens repeatCount seed strategy (split r i) ++
      genItemsConsole rest key gens repeatCount seed strategy (i + 1) r
termination_by sizeOf items
decreasing_by
  all_goals simp_wf
  all_goals omega

end

/-! ## Schema paths

Paths through the composite nodes that pass `repeatCount` through
unchanged: object fields, tuple positions, and the two keyed-map sample
entries.  `schemaAt` follows a path in the schema; `valueAt` follows the
same path in a generated value. -/

/-- One step of a path: an object field (by name), a tuple position, or
one of the two keyed-map sample entries. -/
inductive Step where
  | field (k : String)
  | idx (i : Nat)
  | recVal (i : Nat)

/-- Follows a path through a schema: `field k` looks up `k` in an
object's shape, `idx i` takes the `i`-th tuple item, `recVal i`
(`i < 2`) enters a keyed-map's value schema. -/
def schemaAt (s : ZodSchema) (path : List Step) : Option ZodSchema :=
  match s, path with
  | s, [] => some s
  | .zobject shape, .field k :: p =>
    match shape.lookup k with
    | some sub => schemaAt sub p
    | none => none
  | .ztuple items, .idx i :: p =>
    match items[i]? with
    | some sub => schemaAt sub p
    | none => none
  | .zrecord valueType, .recVal i :: p =>
    if i < 2 then schemaAt valueType p else none
  | _, _ => none

/-- Follows the same path through a generated value: `field k` looks up
the field, `idx i` indexes the array a tuple generates, `recVal i` takes
the value of the `i`-th entry of the keyed-map object. -/
def valueAt (v : Value) (path : List Step) : Option Value :=
  match v, path with
  | v, [] => some v
  | .vobj fields, .field k :: p =>
    match fields.lookup k with
    | some sub => valueAt sub p
    | none => none
  | .varr items, .idx i :: p =>
    match items[i]? with
    | some sub => valueAt sub p
    | none => none
  | .vobj fields, .recVal i :: p =>
    match fields[i]? with
    | some kv => valueAt kv.2 p
    | none => none
  | _, _ => none

/-! ## Response assembly of the 0.2.0 interceptor (modelled from the spec)

The repository snapshot ships the registry-generation half of the 0.2.0
release (core.ts builds entries with `responseBody` and `status`), but
the matching interceptor — the one the CHANGELOG 0.2.0 describes as
implementing dynamic status codes, axios-compliant rejections for
status ≥ 400 and the `responseBody` > `responseType` > default priority
— is not among the source files; the interceptor present always resolves
with status 200 and reads neither `status` nor `responseBody`.  The two
definitions below model the missing assembler from the spec (§4.4). -/

/-- A resolved mock response (body, status and status text). -/
structure MockResponse where
  data : Value
  status : Nat
  statusText : String
  deriving Repr

/-- Modelled from the spec: the rejection the missing 0.2.0 interceptor
produces for status ≥ 400 — "a rejection object shaped to resemble the
underlying HTTP client's native error structure (carrying response data,
status, and a serializable summary)".  `response` carries the body and
status as an axios error does; `summary` is the serializable summary
(axios's `toJSON()` message). -/
structure MockRejection where
  message : String
  response : MockResponse
  isAxiosError : Bool
  summary : String
  deriving Repr

/-- Modelled from the spec (§4.4): the missing 0.2.0 assembler's final
step — "If status ≥ 400, the result is a rejection object ... rather
than a resolved success value", otherwise a resolved value carrying that
status code. -/
def assembleResult (body : Value) (status : Nat) : Except MockRejection MockResponse :=
  if 400 ≤ status then
    .error { message := "Request failed with status code " ++ Nat.repr status,
             response := { data := body, status := status, statusText := "" },
             isAxiosError := true,
             summary := "Request failed with status code " ++ Nat.repr status }
  else
    .ok { data := body, status := status, statusText := "OK" }

/-- Modelled from the spec (§4.4, precedence rule 3): the diagnostic
placeholder body yielded when neither a literal body override nor a
schema reference is configured. -/
def placeholderBody : Value :=
  .vstr "[Zomoc] Warning: neither responseBody nor responseType was configured for this route."

/-- Modelled from the spec (§4.4): the missing 0.2.0 interceptor's body
precedence — (1) a literal `responseBody` override is used verbatim,
ignoring any schema; (2) else a schema reference is synthesized (via the
pagination adapter when pagination is configured, else plain synthesis);
(3) else the diagnostic placeholder. -/
def buildBody (responseBody : Option Value) (schemaRef : Option ZodSchema)
    (pag : Option Pagination) (params bodyData : List (String × Nat))
    (gens : CustomGenerators) (strategy : Option Strategy)
    (repeatCount : Option Nat) (r : RNG) : Except String Value :=
  match responseBody with
  | some v => .ok v
  | none =>
    match schemaRef with
    | some schema =>
      match pag with
      | some p => paginationBranch p params bodyData schema gens strategy r
      | none => .ok (gen schema "" gens repeatCount 0 (strategy.getD .random) r)
    | none => .ok placeholderBody

/-! ## Unfolding equations for the generator -/

theorem gen_zarray_none (e : ZodSchema) (key : String) (gens : CustomGenerators)
    (seed : Nat) (strat : Strategy) (r : RNG) :
    gen (.zarray e) key gens none seed strat r =
      .varr ((List.range (draw (split r 0) 3 + 1)).map fun i =>
        gen e (key ++ "[" ++ Nat.repr i ++ "]") gens none
          (seed * (draw (split r 0) 3 + 1) + i) strat (split r (i + 1))) := by
  simp [gen]

theorem gen_zarray_some (e : ZodSchema) (key : String) (gens : CustomGenerators)
    (n seed : Nat) (strat : Strategy) (r : RNG) :
    gen (.zarray e) key gens (some n) seed strat r =
      .varr ((List.range n).map fun i =>
        gen e (key ++ "[" ++ Nat.repr i ++ "]") gens none
          (seed * n + i) strat (split r (i + 1))) := by
  simp [gen]

theorem gen_zobject (shape : List (String × ZodSchema)) (key : String)
    (gens : CustomGenerators) (rep : Option Nat) (seed : Nat) (strat : Strategy)
    (r : RNG) :
    gen (.zobject shape) key gens rep seed strat r =
      .vobj (genFields shape gens rep seed strat 0 r) := by
  simp [gen]

theorem gen_zrecord (vt : ZodSchema) (key : String) (gens : CustomGenerators)
    (rep : Option Nat) (seed : Nat) (strat : Strategy) (r : RNG) :
    gen (.zrecord vt) key gens rep seed strat r =
      .vobj [("key1", gen vt "key1" gens rep seed strat (split r 0)),
             ("key2", gen vt "key2" gens rep seed strat (split r 1))] := by
  simp [gen]

theorem gen_ztuple (items : List ZodSchema) (key : String) (gens : CustomGenerators)
    (rep : Option Nat) (seed : Nat) (strat : Strategy) (r : RNG) :
    gen (.ztuple items) key gens rep seed strat r =
      .varr (genItems items key gens rep seed strat 0 r) := by
  simp [gen]

theorem gen_zunknown (key : String) (gens : CustomGenerators) (rep : Option Nat)
    (seed : Nat) (strat : Strategy) (r : RNG) :
    gen .zunknown key gens rep seed strat r = .vstr "unhandled zod type" := by
  simp [gen]

/-! ## Claim C1 — first-match route resolution -/

/-- C1: the resolver scans registry entries strictly in declaration
order, skipping entries whose method does not match case-insensitively,
and returns the descriptor (and captured path parameters) of the first
entry whose pattern structurally matches the URL, stopping there — it
equals a first-match search over the entry list; in particular, for the
registry `[["GET /users/:id", A], ["GET /users/me", B]]` and request
`GET /users/me` (however the method is cased) it returns `A` with path
parameter `id = "me"`. -/
theorem c1_resolver_first_match_wins :
    (∀ (α : Type) (registry : List (String × α)) (method url : String),
      resolve registry method url =
        (registry.find? fun e => (entryMatch (jsToUpper method) url e.1).isSome).bind
          fun e => (entryMatch (jsToUpper method) url e.1).map fun ps => (e.2, ps)) ∧
    resolve [("GET /users/:id", "A"), ("GET /users/me", "B")] "GET" "/users/me"
      = some ("A", [("id", "me")]) ∧
    resolve [("GET /users/:id", "A"), ("GET /users/me", "B")] "get" "/users/me"
      = some ("A", [("id", "me")]) := by
  refine ⟨fun α registry method url => ?_, by decide, by decide⟩
  induction registry with
  | nil => simp [resolve]
  | cons hd tl ih =>
    obtain ⟨k, v⟩ := hd
    cases h : entryMatch (jsToUpper method) url k with
    | some ps => simp [resolve, List.find?, h]
    | none => simp [resolve, List.find?, h, ih]

/-! ## Claim C2 — status ≥ 400 rejects, status < 400 resolves -/

/-- C2 (the 0.2.0 assembler is modelled from the spec, see
`assembleResult`): for every matched descriptor, a status ≥ 400 yields a
rejection shaped like the client's native error — carrying the body, the
status and a serializable summary — and never a resolved value, while a
status < 400 yields a resolved value carrying that exact status code. -/
theorem c2_status_400_rejects (body : Value) (status : Nat) :
    (400 ≤ status →
      ∃ rej : MockRejection,
        assembleResult body status = .error rej ∧
        rej.response.data = body ∧
        rej.response.status = status ∧
        rej.isAxiosError = true ∧
        rej.summary = "Request failed with status code " ++ Nat.repr status ∧
        ∀ res : MockResponse, assembleResult body status ≠ .ok res) ∧
    (status < 400 →
      assembleResult body status = .ok { data := body, status := status, statusText := "OK" }) := by
  constructor
  · intro h
    refine ⟨⟨"Request failed with status code " ++ Nat.repr status,
            ⟨body, status, ""⟩, true,
            "Request failed with status code " ++ Nat.repr status⟩,
          ?_, rfl, rfl, rfl, rfl, ?_⟩
    · simp [assembleResult, h]
    · intro res hres
      simp [assembleResult, h] at hres
  · intro h
    simp [assembleResult, Nat.not_le.mpr h]

/-- Witness for C2 at statuses 404 and 200. -/
theorem c2_status_400_rejects_witness :
    (400 ≤ 404 ∧
      ∃ rej : MockRejection,
        assembleResult (.vstr "nope") 404 = .error rej ∧
        rej.response.data = .vstr "nope" ∧
        rej.response.status = 404 ∧
        rej.isAxiosError = true ∧
        rej.summary = "Request failed with status code " ++ Nat.repr 404 ∧
        ∀ res : MockResponse, assembleResult (.vstr "nope") 404 ≠ .ok res) ∧
    ((200 : Nat) < 400 ∧
      assembleResult (.vstr "yes") 200 = .ok { data := .vstr "yes", status := 200, statusText := "OK" }) :=
  ⟨⟨by decide, (c2_status_400_rejects (.vstr "nope") 404).1 (by decide)⟩,
   ⟨by decide, (c2_status_400_rejects (.vstr "yes") 200).2 (by decide)⟩⟩

/-! ## Claim C3 — literal body override always wins; placeholder fallback -/

/-- C3 (the 0.2.0 body assembly is modelled from the spec, see
`buildBody`): for every descriptor carrying both a literal body override
and a schema reference, the assembled body is the literal override
verbatim — the same for every schema, pagination config and random
oracle, so the schema is never synthesized into the result; and with
neither an override nor a schema the body is the diagnostic placeholder
noting that neither was configured. -/
theorem c3_override_beats_schema :
    (∀ (ov : Value) (schema : ZodSchema) (pag : Option Pagination)
        (params bodyData : List (String × Nat)) (gens : CustomGenerators)
        (strategy : Option Strategy) (rep : Option Nat) (r : RNG),
      buildBody (some ov) (some schema) pag params bodyData gens strategy rep r = .ok ov) ∧
    (∀ (pag : Option Pagination) (params bodyData : List (String × Nat))
        (gens : CustomGenerators) (strategy : Option Strategy) (rep : Option Nat)
        (r : RNG),
      buildBody none none pag params bodyData gens strategy rep r = .ok placeholderBody) := by
  exact ⟨fun _ _ _ _ _ _ _ _ _ => rfl, fun _ _ _ _ _ _ _ => rfl⟩

/-! ## Claim C4 — array lengths under repeatCount -/

/-- With no repeat count the array branch draws a length in [1,3]. -/
theorem gen_array_none_len (e : ZodSchema) (key : String) (gens : CustomGenerators)
    (seed : Nat) (strat : Strategy) (r : RNG) :
    ∃ items, gen (.zarray e) key gens none seed strat r = .varr items ∧
      1 ≤ items.length ∧ items.length ≤ 3 := by
  rw [gen_zarray_none]
  refine ⟨_, rfl, by simp, ?_⟩
  have h : draw (split r 0) 3 < 3 := Nat.mod_lt _ (by norm_num)
  simp
  omega

/-- C4: array synthesis with no repeatCount yields a length in [1,3];
with repeatCount = n it yields exactly n items; and each item is
synthesized with repeatCount cleared to unset — so an array nested
inside an array item does not inherit the outer count and gets a length
in [1,3]. -/
theorem c4_array_repeat_count :
    (∀ (e : ZodSchema) (key : String) (gens : CustomGenerators) (seed : Nat)
        (strat : Strategy) (r : RNG),
      ∃ items, gen (.zarray e) key gens none seed strat r = .varr items ∧
        1 ≤ items.length ∧ items.length ≤ 3) ∧
    (∀ (e : ZodSchema) (key : String) (gens : CustomGenerators) (n seed : Nat)
        (strat : Strategy) (r : RNG),
      ∃ items, gen (.zarray e) key gens (some n) seed strat r = .varr items ∧
        items.length = n ∧
        items = (List.range n).map fun i =>
          gen e (key ++ "[" ++ Nat.repr i ++ "]") gens none (seed * n + i) strat
            (split r (i + 1))) ∧
    (∀ (e : ZodSchema) (key : String) (gens : CustomGenerators) (n seed : Nat)
        (strat : Strategy) (r : RNG) (i : Nat), i < n →
      ∃ inner,
        valueAt (gen (.zarray (.zarray e)) key gens (some n) seed strat r) [.idx i]
          = some (.varr inner) ∧ 1 ≤ inner.length ∧ inner.length ≤ 3) := by
  refine ⟨fun e key gens seed strat r => gen_array_none_len e key gens seed strat r,
          fun e key gens n seed strat r => ⟨_, gen_zarray_some .., by simp, rfl⟩,
          fun e key gens n seed strat r i hi => ?_⟩
  rw [gen_zarray_some]
  obtain ⟨inner, hinner, h1, h3⟩ :=
    gen_array_none_len e (key ++ "[" ++ Nat.repr i ++ "]") gens (seed * n + i) strat
      (split r (i + 1))
  refine ⟨inner, ?_, h1, h3⟩
  simp [valueAt, List.getElem?_range, hi, hinner]

/-- Witness for C4's nested-array conjunct at `n = 2`, `i = 0`. -/
theorem c4_array_repeat_count_witness :
    0 < 2 ∧
    ∃ inner,
      valueAt (gen (.zarray (.zarray .zstring)) "" defaultGens (some 2) 0 .random
          (fun _ => 0)) [.idx 0]
        = some (.varr inner) ∧ 1 ≤ inner.length ∧ inner.length ≤ 3 :=
  ⟨by decide,
   c4_array_repeat_count.2.2 .zstring "" defaultGens 2 0 .random (fun _ => 0) 0 (by decide)⟩

/-! ## Claim C6 — fixed strategy picks the first declared option -/

/-- C6: under strategy = fixed, enum synthesis always returns the first
declared enum value, and union / discriminated-union synthesis always
recursively synthesizes the first declared member (in declaration order)
rather than returning it as a type descriptor; the selection does not
depend on the random oracle, so repeated fixed synthesis of the same
node always selects the same first option. -/
theorem c6_fixed_first_option :
    (∀ (f : String) (rest : List String) (key : String) (gens : CustomGenerators)
        (rep : Option Nat) (seed : Nat) (r : RNG),
      gen (.zenum f rest) key gens rep seed .fixed r = .vstr f) ∧
    (∀ (s : ZodSchema) (ss : List ZodSchema) (key : String) (gens : CustomGenerators)
        (rep : Option Nat) (seed : Nat) (r : RNG),
      gen (.zunion s ss) key gens rep seed .fixed r =
        gen s key gens rep seed .fixed (split r 0)) ∧
    (∀ (o : ZodSchema) (os : List ZodSchema) (key : String) (gens : CustomGenerators)
        (rep : Option Nat) (seed : Nat) (r : RNG),
      gen (.zdiscriminatedUnion (o :: os)) key gens rep seed .fixed r =
        gen o key gens rep seed .fixed (split r 0)) ∧
    (∀ (f : String) (rest : List String) (key : String) (gens : CustomGenerators)
        (rep : Option Nat) (seed : Nat) (r₁ r₂ : RNG),
      gen (.zenum f rest) key gens rep seed .fixed r₁ =
        gen (.zenum f rest) key gens rep seed .fixed r₂) := by
  refine ⟨fun f rest key gens rep seed r => by simp [gen],
          fun s ss key gens rep seed r => by simp [gen],
          fun o os key gens rep seed r => by simp [gen],
          fun f rest key gens rep seed r₁ r₂ => by simp [gen]⟩

/-! ## Claim C8 — unrecognized schema kinds (corrected) -/

/-- C8 counterexample: at the concrete unrecognized node the generator
returns the sentinel, but its console output is empty — no warning
tagged with the offending field path (or any warning at all) is
reported, contradicting the claim's warning clause.  (generator.ts
contains no console statement; `genConsole` mirrors it branch by
branch.) -/
theorem c8_counterexample :
    gen .zunknown "profile.extra" defaultGens none 0 .random (fun _ => 0)
      = .vstr "unhandled zod type" ∧
    genConsole .zunknown "profile.extra" defaultGens none 0 .random (fun _ => 0)
      = ([] : List String) :=
  ⟨by simp [gen], by simp [genConsole]⟩

/-- C8 as amended: for every schema node of unrecognized kind, synthesis
returns the clearly-tagged sentinel `"unhandled zod type"` instead of
throwing, reports no warning (the generator emits no console output for
the fallback), and synthesis of sibling fields of the enclosing object
continues unaffected — the other keys of the result are still populated
with their own synthesized values. -/
theorem c8_unknown_kind_sentinel :
    (∀ (key : String) (gens : CustomGenerators) (rep : Option Nat) (seed : Nat)
        (strat : Strategy) (r : RNG),
      gen .zunknown key gens rep seed strat r = .vstr "unhandled zod type") ∧
    (∀ (key : String) (gens : CustomGenerators) (rep : Option Nat) (seed : Nat)
        (strat : Strategy) (r : RNG),
      genConsole .zunknown key gens rep seed strat r = []) ∧
    (∀ (shape : List (String × ZodSchema)) (key : String) (gens : CustomGenerators)
        (rep : Option Nat) (seed : Nat) (strat : Strategy) (r : RNG),
      gen (.zobject shape) key gens rep seed strat r =
        .vobj (genFields shape gens rep seed strat 0 r)) ∧
    (∀ (pre post : List (String × ZodSchema)) (k : String) (gens : CustomGenerators)
        (rep : Option Nat) (seed : Nat) (strat : Strategy) (i : Nat) (r : RNG),
      genFields (pre ++ (k, .zunknown) :: post) gens rep seed strat i r =
        genFields pre gens rep seed strat i r ++
          (k, .vstr "unhandled zod type") ::
            genFields post gens rep seed strat (i + pre.length + 1) r) := by
  refine ⟨fun key gens rep seed strat r => by simp [gen],
          fun key gens rep seed strat r => by simp [genConsole],
          fun shape key gens rep seed strat r => gen_zobject ..,
          fun pre post k gens rep seed strat i r => ?_⟩
  induction pre generalizing i with
  | nil => simp [genFields, gen_zunknown]
  | cons hd tl ih =>
    obtain ⟨f, s⟩ := hd
    simp only [List.cons_append, genFields, ih, List.length_cons]
    have : i + 1 + tl.length + 1 = i + (tl.length + 1) + 1 := by omega
    rw [this]

/-! ## Claim C5 — pagination: exact size, query > body > default, dummy total -/

/-- C5: on a pagination-configured route whose schema holds an array at
`itemsKey`, the assembled body carries exactly `size` synthesized items
(generated with `repeatCount = size` and `seed = page`), a total that is
the fixed placeholder 100 whatever page/size are, and the page echoed
under the configured page key; page and size are the request query
parameter first, else the same-named request-body field, else 1 / 10 —
stated by the final three conjuncts about the extraction expression. -/
theorem c5_pagination_exact_size (pag : Pagination)
    (params bodyData : List (String × Nat)) (shape : List (String × ZodSchema))
    (e : ZodSchema) (gens : CustomGenerators) (strategy : Option Strategy) (r : RNG)
    (hs : shape.lookup pag.itemsKey = some (.zarray e)) :
    (∃ items : List Value,
      paginationBranch pag params bodyData (.zobject shape) gens strategy r =
        .ok (.vobj [(pag.itemsKey, .varr items),
                    (pag.totalKey, .vnum 100),
                    (pag.pageKey.getD "page",
                      .vnum (((params.lookup (pag.pageKey.getD "page")).orElse
                        fun _ => bodyData.lookup (pag.pageKey.getD "page")).getD 1))]) ∧
      items.length = ((params.lookup (pag.sizeKey.getD "size")).orElse
        fun _ => bodyData.lookup (pag.sizeKey.getD "size")).getD 10) ∧
    (∀ (k : String) (d v : Nat), params.lookup k = some v →
      (((params.lookup k).orElse fun _ => bodyData.lookup k).getD d) = v) ∧
    (∀ (k : String) (d v : Nat), params.lookup k = none → bodyData.lookup k = some v →
      (((params.lookup k).orElse fun _ => bodyData.lookup k).getD d) = v) ∧
    (∀ (k : String) (d : Nat), params.lookup k = none → bodyData.lookup k = none →
      (((params.lookup k).orElse fun _ => bodyData.lookup k).getD d) = d) := by
  refine ⟨?_, ?_, ?_, ?_⟩
  · simp only [paginationBranch, shapeOf, hs]
    rw [gen_zarray_some]
    exact ⟨_, rfl, by simp⟩
  · intro k d v h; simp [h]
  · intro k d v h h'; simp [h, h', Option.orElse]
  · intro k d h h'; simp [h, h', Option.orElse]

/-- Witness for C5: size 3 requested via the query parameters, page
defaulted to 1. -/
theorem c5_pagination_exact_size_witness :
    ([("items", ZodSchema.zarray .zstring)].lookup "items"
      = some (ZodSchema.zarray .zstring)) ∧
    ∃ items : List Value,
      paginationBranch ⟨"items", "total", none, none⟩ [("size", 3)] []
          (.zobject [("items", .zarray .zstring)]) defaultGens none (fun _ => 0) =
        .ok (.vobj [("items", .varr items), ("total", .vnum 100), ("page", .vnum 1)]) ∧
      items.length = 3 := by
  refine ⟨rfl, ?_⟩
  obtain ⟨⟨items, h1, h2⟩, -, -, -⟩ :=
    c5_pagination_exact_size ⟨"items", "total", none, none⟩ [("size", 3)] []
      [("items", .zarray .zstring)] .zstring defaultGens none (fun _ => 0) rfl
  exact ⟨items, h1, h2⟩

/-! ## Claim C9 — pagination on a non-object schema (corrected) -/

/-- C9 counterexample: with pagination configured on a string schema,
response assembly does not produce any resolved value — the unguarded
`(schema as any).shape[itemsKey]` access throws. -/
theorem c9_counterexample :
    ¬ ∃ v, paginationBranch ⟨"items", "total", none, none⟩ [] [] .zstring defaultGens
        none (fun _ => 0) = Except.ok v := by
  rintro ⟨v, hv⟩
  have h : paginationBranch ⟨"items", "total", none, none⟩ [] [] .zstring defaultGens
      none (fun _ => 0) =
      Except.error "TypeError: Cannot read properties of undefined (reading the items key)" := rfl
  rw [h] at hv
  simp at hv

/-- C9 as amended: applying pagination to a route whose schema is not an
object makes response assembly throw a TypeError (the interceptor reads
`.shape` of the schema without a guard, getting `undefined`); the
misconfiguration is a runtime crash of the mocked request, not a
handled configuration error. -/
theorem c9_nonobject_pagination_throws (pag : Pagination)
    (params bodyData : List (String × Nat)) (s : ZodSchema) (gens : CustomGenerators)
    (strategy : Option Strategy) (r : RNG) (h : shapeOf s = none) :
    paginationBranch pag params bodyData s gens strategy r =
      .error "TypeError: Cannot read properties of undefined (reading the items key)" := by
  simp [paginationBranch, h]

/-- Witness for C9's amended statement at a string schema. -/
theorem c9_nonobject_pagination_throws_witness :
    shapeOf ZodSchema.zstring = none ∧
    paginationBranch ⟨"items", "total", none, none⟩ [] [] .zstring defaultGens
        none (fun _ => 0) =
      .error "TypeError: Cannot read properties of undefined (reading the items key)" :=
  ⟨rfl, c9_nonobject_pagination_throws ⟨"items", "total", none, none⟩ [] [] .zstring
    defaultGens none (fun _ => 0) rfl⟩

/-! ## Claim C7 — routes referencing an unknown type name (corrected) -/

/-- C7 counterexample: in a batch where `GET /a` references the type
`Missing` (whose schema `MissingSchema` is not among the survived
declarations) and `GET /b` references the known type `Good`, the built
registry holds only the `GET /b` entry — the affected route is not
registered at all, contradicting the claim that it is registered without
a schema. -/
theorem c7_counterexample :
    buildEntries ["GoodSchema"] (fun n => n ++ "Schema")
        [("GET /a", .typeName "Missing"), ("GET /b", .typeName "Good")] =
      [{ key := "GET /b", schema := some "GoodSchema", responseBody := none,
         status := 200, pagination := none, strategy := .random, repeatCount := none }] ∧
    ¬ ∃ entry, entry ∈ buildEntries ["GoodSchema"] (fun n => n ++ "Schema")
        [("GET /a", .typeName "Missing"), ("GET /b", .typeName "Good")] ∧
      entry.key = "GET /a" := by
  have h : buildEntries ["GoodSchema"] (fun n => n ++ "Schema")
      [("GET /a", .typeName "Missing"), ("GET /b", .typeName "Good")] =
      [{ key := "GET /b", schema := some "GoodSchema", responseBody := none,
         status := 200, pagination := none, strategy := .random, repeatCount := none }] := rfl
  refine ⟨h, ?_⟩
  rintro ⟨entry, he, hk⟩
  rw [h] at he
  simp at he
  rw [he] at hk
  simp at hk

/-- C7 as amended: a route whose registration references a type name
whose schema is absent from the survived declarations is skipped — no
entry is emitted for it (in simple-name, simple-config and response-map
modes alike) — but this is never fatal: the remaining routes of the same
batch are still registered exactly as without it; the registration-time
warning lists the type name whenever it was indexed from the interface
files (the failed-schema-generation warning of step 4). -/
theorem c7_missing_type_route_skipped (survived : List String)
    (nameOf : String → String) (key name : String)
    (h : survived.contains (nameOf name) = false) :
    (processEntry survived nameOf key (.typeName name)).1 = none ∧
    (∀ (rb : Option Value) (pagc : Option Pagination) (ms : Option Strategy)
        (rc : Option Nat) (st : Option Nat),
      (processEntry survived nameOf key (.simple (some name) rb pagc ms rc st)).1 = none) ∧
    (∀ (responses : List (String × ResponseDefinition)) (st : Nat)
        (active : ResponseDefinition),
      responses.lookup (Nat.repr st) = some active → active.responseType = some name →
      (processEntry survived nameOf key (.responseMap responses st)).1 = none) ∧
    (∀ (b₁ b₂ : List (String × MockConfig)),
      buildEntries survived nameOf (b₁ ++ (key, .typeName name) :: b₂) =
        buildEntries survived nameOf b₁ ++ buildEntries survived nameOf b₂) ∧
    (∀ interfaceNames : List String, name ∈ interfaceNames →
      name ∈ failedInterfaceNames interfaceNames survived nameOf) := by
  have h' : nameOf name ∉ survived := by simpa using h
  refine ⟨?_, ?_, ?_, ?_, ?_⟩
  · simp [processEntry, emitEntry, h, h']
  · intro rb pagc ms rc st
    simp [processEntry, emitEntry, h, h']
  · intro responses st active hl hrt
    simp [processEntry, hl, hrt, emitEntry, h, h']
  · intro b₁ b₂
    have h1 : (processEntry survived nameOf key (.typeName name)).1 = none := by
      simp [processEntry, emitEntry, h, h']
    simp [buildEntries, List.filterMap_append, List.filterMap_cons, h1]
  · intro interfaceNames hmem
    simp [failedInterfaceNames, List.mem_filter, hmem, h, h']

/-- Witness for C7's amended statement: the `Missing` route is dropped
while the rest of the batch survives. -/
theorem c7_missing_type_route_skipped_witness :
    (["GoodSchema"].contains ((fun n => n ++ "Schema") "Missing") = false) ∧
    (processEntry ["GoodSchema"] (fun n => n ++ "Schema") "GET /a"
      (.typeName "Missing")).1 = none ∧
    buildEntries ["GoodSchema"] (fun n => n ++ "Schema")
        ([] ++ ("GET /a", .typeName "Missing") :: [("GET /b", .typeName "Good")]) =
      buildEntries ["GoodSchema"] (fun n => n ++ "Schema") [] ++
        buildEntries ["GoodSchema"] (fun n => n ++ "Schema") [("GET /b", .typeName "Good")] := by
  have h := c7_missing_type_route_skipped ["GoodSchema"] (fun n => n ++ "Schema")
    "GET /a" "Missing" rfl
  exact ⟨rfl, h.1, h.2.2.2.1 [] [("GET /b", .typeName "Good")]⟩

/-! ## Claim C10 — repeatCount threads through object/tuple/record, arrays clear it -/

/-- Looking up a field in the generated object fields finds the
generated value of the schema field with the same name (first
occurrence), under some oracle slice. -/
theorem genFields_lookup (gens : CustomGenerators) (rep : Option Nat) (seed : Nat)
    (strat : Strategy) (k : String) (sub : ZodSchema) :
    ∀ (shape : List (String × ZodSchema)) (i : Nat) (r : RNG),
      shape.lookup k = some sub →
      ∃ j, (genFields shape gens rep seed strat i r).lookup k =
        some (gen sub k gens rep seed strat (split r j)) := by
  intro shape
  induction shape with
  | nil => intro i r h; simp [List.lookup] at h
  | cons hd tl ih =>
    intro i r h
    obtain ⟨f, s⟩ := hd
    cases hkf : (k == f) with
    | true =>
      have hs : s = sub := by simpa [List.lookup, hkf] using h
      subst hs
      have hfk : k = f := beq_iff_eq.mp hkf
      subst hfk
      exact ⟨i, by simp [genFields, List.lookup]⟩
    | false =>
      have h' : tl.lookup k = some sub := by simpa [List.lookup, hkf] using h
      obtain ⟨j, hj⟩ := ih (i + 1) r h'
      exact ⟨j, by simp [genFields, List.lookup, hkf, hj]⟩

/-- Indexing the generated tuple items finds the generated value of the
tuple item schema at that position, under some oracle slice. -/
theorem genItems_getElem (key : String) (gens : CustomGenerators) (rep : Option Nat)
    (seed : Nat) (strat : Strategy) (sub : ZodSchema) :
    ∀ (items : List ZodSchema) (i0 i : Nat) (r : RNG), items[i]? = some sub →
      ∃ j, (genItems items key gens rep seed strat i0 r)[i]? =
        some (gen sub (key ++ "[" ++ Nat.repr j ++ "]") gens rep seed strat (split r j)) := by
  intro items
  induction items with
  | nil => intro i0 i r h; simp at h
  | cons hd tl ih =>
    intro i0 i r h
    cases i with
    | zero =>
      simp at h
      subst h
      exact ⟨i0, by simp [genItems]⟩
    | succ i' =>
      simp at h
      obtain ⟨j, hj⟩ := ih (i0 + 1) i' r h
      exact ⟨j, by simp [genItems, hj]⟩

/-- Inversion: a `field` step only succeeds on an object schema. -/
theorem schemaAt_field_inv (s : ZodSchema) (k : String) (p : List Step) (t : ZodSchema)
    (h : schemaAt s (.field k :: p) = some t) :
    ∃ shape sub, s = .zobject shape ∧ shape.lookup k = some sub ∧ schemaAt sub p = some t := by
  cases s <;> simp [schemaAt] at h
  case zobject shape =>
    cases hl : shape.lookup k with
    | none => rw [hl] at h; simp at h
    | some sub => rw [hl] at h; exact ⟨shape, sub, rfl, hl, h⟩

/-- Inversion: an `idx` step only succeeds on a tuple schema. -/
theorem schemaAt_idx_inv (s : ZodSchema) (i : Nat) (p : List Step) (t : ZodSchema)
    (h : schemaAt s (.idx i :: p) = some t) :
    ∃ items sub, s = .ztuple items ∧ items[i]? = some sub ∧ schemaAt sub p = some t := by
  cases s <;> simp [schemaAt] at h
  case ztuple items =>
    cases hl : items[i]? with
    | none => rw [hl] at h; simp at h
    | some sub => rw [hl] at h; exact ⟨items, sub, rfl, hl, h⟩

/-- Inversion: a `recVal` step only succeeds on a keyed-map schema. -/
theorem schemaAt_recVal_inv (s : ZodSchema) (i : Nat) (p : List Step) (t : ZodSchema)
    (h : schemaAt s (.recVal i :: p) = some t) :
    ∃ vt, s = .zrecord vt ∧ i < 2 ∧ schemaAt vt p = some t := by
  cases s <;> simp [schemaAt] at h
  case zrecord vt =>
    exact ⟨vt, rfl, h.1, h.2⟩

/-- C10: the synthesizer threads the caller's repeatCount down unchanged
through object fields, tuple elements and keyed-map values (only array
items clear it): along every path of such steps that reaches an array
schema node, synthesis with repeatCount = n produces, at the same path
in the value, an array of exactly n items. -/
theorem c10_repeat_count_threading (p : List Step) :
    ∀ (s e : ZodSchema) (n : Nat) (key : String) (gens : CustomGenerators)
      (seed : Nat) (strat : Strategy) (r : RNG),
      schemaAt s p = some (.zarray e) →
      ∃ items, valueAt (gen s key gens (some n) seed strat r) p = some (.varr items) ∧
        items.length = n := by
  induction p with
  | nil =>
    intro s e n key gens seed strat r h
    simp [schemaAt] at h
    subst h
    rw [gen_zarray_some]
    exact ⟨_, rfl, by simp⟩
  | cons step p ih =>
    intro s e n key gens seed strat r h
    cases step with
    | field k =>
      obtain ⟨shape, sub, rfl, hl, hsub⟩ := schemaAt_field_inv s k p _ h
      obtain ⟨j, hlook⟩ := genFields_lookup gens (some n) seed strat k sub shape 0 r hl
      obtain ⟨items, hv, hlen⟩ := ih sub e n k gens seed strat (split r j) hsub
      refine ⟨items, ?_, hlen⟩
      rw [gen_zobject]
      simp [valueAt, hlook, hv]
    | idx i =>
      obtain ⟨tupItems, sub, rfl, hl, hsub⟩ := schemaAt_idx_inv s i p _ h
      obtain ⟨j, hlook⟩ := genItems_getElem key gens (some n) seed strat sub tupItems 0 i r hl
      obtain ⟨items, hv, hlen⟩ := ih sub e n (key ++ "[" ++ Nat.repr j ++ "]") gens seed
        strat (split r j) hsub
      refine ⟨items, ?_, hlen⟩
      rw [gen_ztuple]
      simp [valueAt, hlook, hv]
    | recVal i =>
      obtain ⟨vt, rfl, hi, hsub⟩ := schemaAt_recVal_inv s i p _ h
      rw [gen_zrecord]
      match i, hi with
      | 0, _ =>
        obtain ⟨items, hv, hlen⟩ := ih vt e n "key1" gens seed strat (split r 0) hsub
        exact ⟨items, by simp [valueAt, hv], hlen⟩
      | 1, _ =>
        obtain ⟨items, hv, hlen⟩ := ih vt e n "key2" gens seed strat (split r 1) hsub
        exact ⟨items, by simp [valueAt, hv], hlen⟩

/-- Witness for C10: an object whose `tags` field is an array, with
repeatCount 5, yields exactly 5 items at that field. -/
theorem c10_repeat_count_threading_witness :
    schemaAt (.zobject [("name", .zstring), ("tags", .zarray .znumber)]) [.field "tags"]
      = some (.zarray .znumber) ∧
    ∃ items, valueAt (gen (.zobject [("name", .zstring), ("tags", .zarray .znumber)])
        "" defaultGens (some 5) 0 .random (fun _ => 0)) [.field "tags"]
      = some (.varr items) ∧ items.length = 5 :=
  ⟨rfl, c10_repeat_count_threading [.field "tags"] _ .znumber 5 "" defaultGens 0 .random
    (fun _ => 0) rfl⟩

end Zomoc
